import Mathlib

/-!
Verification of the remat-data CLI (src/remat_data/dataset.py and
src/remat_data/config.py), a thin command-line client for the Clowder
content-management service.

The Python code is shallowly embedded: network responses and
`mimetypes.guess_type` become explicit environment records, the local
filesystem becomes an explicit state value, and each command becomes a
pure function returning the network calls it issued, the console
messages it printed, and its exit behaviour.
-/

namespace RematData

/-- Python truthiness of an optional string: `None` and `""` are falsy,
every other string is truthy. -/
def pyFalsyOptStr : Option String → Bool
  | none => true
  | some s => s == ""

/-- Embedding of the `config` dict from src/remat_data/config.py. -/
structure Config where
  default_new_dataset_name : String
  clowder_base_url : String
  dataset_path : String
deriving Repr, DecidableEq

/-- The concrete configuration values of config.py. -/
def config : Config :=
  { default_new_dataset_name := "Default Dataset"
  , clowder_base_url := "https://re-mat.clowder.ncsa.illinois.edu"
  , dataset_path := "datasets" }

/-- Embedding of `space_map` from src/remat_data/config.py: space display
name to remote identifier. -/
def space_map : List (String × String) :=
  [("DSC Cure Kinetics", "6810f088e4b00420021cff64"),
   ("DSC Post Cures", "6669d4d0e4b0a2d1b9b9a797"),
   ("Front velocities", "6674972be4b0a2d1b9ba0228"),
   ("Test", "67edd4e8e4b00fd657cdd863")]

/-- Embedding of Python `str.lower()` (ASCII case folding; the paths in
question are ASCII). -/
def py_lower (s : String) : String := String.mk (s.data.map Char.toLower)

/-- Embedding of Python `str.endswith(suffix)`. -/
def py_endswith (s suf : String) : Bool := List.isSuffixOf suf.data s.data

/-- Embedding of Python `str.startswith(pre)`. -/
def py_startswith (s pre : String) : Bool := List.isPrefixOf pre.data s.data

/-- MIME resolution performed inside `_upload_file_with_mimetype`
(dataset.py lines 37-40): `guessed_mime_type, _ = mimetypes.guess_type(file_path)`;
if that value is falsy and `file_path.lower().endswith(".mp4")` it becomes
`"video/mp4"`; the final value is `guessed_mime_type or "application/octet-stream"`.
The guess is passed in as a parameter since `mimetypes.guess_type` consults
system tables. -/
def resolve_mime (guessed_mime_type : Option String) (file_path : String) : String :=
  let g := if pyFalsyOptStr guessed_mime_type && py_endswith (py_lower file_path) ".mp4"
           then some "video/mp4" else guessed_mime_type
  if pyFalsyOptStr g then "application/octet-stream" else g.getD ""

/-- One outbound network call of the upload command. `post` records the
dataset name and space identifier from the createempty payload. -/
inductive NetCall where
  | post (path : String) (payload_name : String) (payload_space : String)
  | postFile (path : String) (file_name : String)
  | postMultipart (url : String) (file_name : String) (mime_type : String)
deriving Repr, DecidableEq

/-- Environment of the upload command: the outcome of
`mimetypes.guess_type` per path, and the remote responses. `createResp`
is `none` when `/datasets/createempty` returns a falsy value, otherwise
the created dataset's id. `postFileResp` is the id returned by
`clowder.post_file` (falsy on failure); `multipartOk` is `resp.ok` of the
multipart upload. -/
structure UploadEnv where
  guess : String → Option String
  createResp : Option String
  postFileResp : String → Option String
  multipartOk : String → Bool

/-- Embedding of `_upload_file_with_mimetype` (dataset.py lines 30-46):
returns whether the upload succeeded, the multipart call issued, and the
console output. -/
def upload_file_with_mimetype (env : UploadEnv) (dataset_id file_path : String) :
    Bool × NetCall × List String :=
  let url := config.clowder_base_url ++ "/api/uploadToDataset/" ++ dataset_id
  let mime_type := resolve_mime (env.guess file_path) file_path
  (env.multipartOk file_path,
   NetCall.postMultipart url file_path mime_type,
   ["Uploading " ++ file_path ++ " with MIME type " ++ mime_type])

/-- Embedding of the STEP 2 loop of `upload_file` (dataset.py lines
230-239): for each file in order, dispatch on whether
`mimetypes.guess_type` returned exactly `"video/mp4"`; collect the
network calls and console messages. -/
def upload_loop (env : UploadEnv) (dataset_id : String) :
    List String → List NetCall × List String
  | [] => ([], [])
  | file_name :: rest =>
    let (calls, msgs) :=
      if env.guess file_name == some "video/mp4" then
        let (ok, call, ms) := upload_file_with_mimetype env dataset_id file_name
        ([call], ms ++ (if ok then [] else ["Error uploading file " ++ file_name]))
      else
        ([NetCall.postFile ("/uploadToDataset/" ++ dataset_id) file_name],
         if pyFalsyOptStr (env.postFileResp file_name)
         then ["Error uploading file " ++ file_name] else [])
    let (calls2, msgs2) := upload_loop env dataset_id rest
    (calls ++ calls2, msgs ++ msgs2)

/-- Result of running the upload command: the network calls issued in
order, the console messages, and the exit code (`typer.Exit(code=1)` on
validation failure, 0 otherwise). -/
structure UploadResult where
  calls : List NetCall
  messages : List String
  exitCode : Nat
deriving Repr, DecidableEq

/-- The `space_names` dict built in `upload_file` (dataset.py lines
192-197), keyed by display name with the corresponding flag value. -/
def upload_space_names (cure post_cure front_velocity test : Bool) :
    List (String × Bool) :=
  [("DSC Cure Kinetics", cure),
   ("DSC Post Cures", post_cure),
   ("Front velocities", front_velocity),
   ("Test", test)]

/-- Embedding of `next((name for name, value in space_names.items() if value), None)`
(dataset.py line 209): the first space name whose flag is set. -/
def selected_space_name (cure post_cure front_velocity test : Bool) : Option String :=
  (((upload_space_names cure post_cure front_velocity test).filter
      (fun p => p.2)).head?).map (fun p => p.1)

/-- Embedding of the `upload_file` command (dataset.py lines 152-241). -/
def upload_file (env : UploadEnv) (cure post_cure front_velocity test : Bool)
    (dataset_name : Option String) (file_names : List String) : UploadResult :=
  let space_names := upload_space_names cure post_cure front_velocity test
  if (space_names.filter (fun p => p.2)).length ≠ 1 then
    { calls := [], messages := ["Error: You must specify exactly one space."],
      exitCode := 1 }
  else if file_names.length = 0 then
    { calls := [],
      messages := ["Error: You must specify at least one file to upload."],
      exitCode := 1 }
  else
    let space_name := (selected_space_name cure post_cure front_velocity test).getD ""
    let ds_name := if pyFalsyOptStr dataset_name then config.default_new_dataset_name
                   else dataset_name.getD ""
    let space_id := (space_map.lookup space_name).getD ""
    let msg0 := "Uploading to Space: " ++ space_name ++ " and " ++ space_id
    let createCall := NetCall.post "/datasets/createempty" ds_name space_id
    match env.createResp with
    | none =>
      { calls := [createCall],
        messages := [msg0, "Upload Failed: Failed to create a new dataset"],
        exitCode := 0 }
    | some dataset_id =>
      let dataset_url := config.clowder_base_url ++ "/" ++ config.dataset_path ++
        "/" ++ dataset_id ++ "?space=" ++ space_id
      let uploads := upload_loop env dataset_id file_names
      { calls := createCall :: uploads.1,
        messages := msg0 :: uploads.2 ++
          ["Uploaded Files to newly created dataset: " ++ dataset_url],
        exitCode := 0 }

/-- A file record returned by the `/datasets/{id}/files` endpoint. -/
structure FileRec where
  filename : String
  id : String
deriving Repr, DecidableEq

/-- Environment of the download commands: remote listings and contents. -/
structure DownloadEnv where
  spaceDatasets : String → List String
  metadata : String → String
  files : String → List FileRec
  fileContent : String → String

/-- Local filesystem state: existing directories, and files keyed by the
pair (directory, filename) — the embedding of the path
`Path(dataset_id) / name` — paired with content. Stored metadata is the
JSON value itself, since `json.dump` with `indent=4` followed by a read
denotes the same JSON value. -/
structure FS where
  dirs : List String
  files : List ((String × String) × String)
deriving Repr, DecidableEq

/-- Result of `download_dataset`: final filesystem, GET paths fetched in
order, and the error if directory creation raised. -/
structure DlResult where
  fs : FS
  gets : List String
  err : Option String
deriving Repr, DecidableEq

/-- Embedding of the `download_dataset` command (dataset.py lines
127-144): `Path(dataset_id).mkdir()` raises when the directory exists;
otherwise fetch metadata, write `metadata.json`, fetch the file list,
and download `DSC_Curve.csv` when a record with that exact filename is
listed. -/
def download_dataset (env : DownloadEnv) (fs : FS) (dataset_id : String) : DlResult :=
  if fs.dirs.contains dataset_id then
    { fs := fs, gets := [], err := some "FileExistsError" }
  else
    let fs1 : FS := { fs with dirs := dataset_id :: fs.dirs }
    let fs2 : FS :=
      { fs1 with
        files := ((dataset_id, "metadata.json"), env.metadata dataset_id) :: fs1.files }
    let gets1 := ["/datasets/" ++ dataset_id ++ "/metadata.jsonld",
                  "/datasets/" ++ dataset_id ++ "/files"]
    match (env.files dataset_id).filter (fun f => f.filename == "DSC_Curve.csv") with
    | [] => { fs := fs2, gets := gets1, err := none }
    | f :: _ =>
      { fs := { fs2 with
          files := ((dataset_id, "DSC_Curve.csv"), env.fileContent f.id) :: fs2.files },
        gets := gets1 ++ ["/files/" ++ f.id],
        err := none }

/-- The sequential download loop of `download_space` (dataset.py lines
103-104): run `download_dataset` on each id, threading the filesystem;
an exception from `download_dataset` aborts the command. Returns the
final filesystem and the ids actually downloaded. -/
def download_space_loop (env : DownloadEnv) :
    FS → List String → Except String (FS × List String)
  | fs, [] => Except.ok (fs, [])
  | fs, dataset_id :: rest =>
    let r := download_dataset env fs dataset_id
    match r.err with
    | some e => Except.error e
    | none =>
      match download_space_loop env r.fs rest with
      | Except.error e => Except.error e
      | Except.ok (fs2, ids) => Except.ok (fs2, dataset_id :: ids)

/-- Embedding of the `download_space` command (dataset.py lines 96-104):
collect the datasets of the space whose local directory does not exist,
then download them sequentially. -/
def download_space (env : DownloadEnv) (fs : FS) (space_id : String) :
    Except String (FS × List String) :=
  download_space_loop env fs
    ((env.spaceDatasets space_id).filter (fun d => !(fs.dirs.contains d)))

/-- A call is a file upload (either route), as opposed to the JSON post
that creates the dataset. -/
def NetCall.isUpload : NetCall → Bool
  | NetCall.post _ _ _ => false
  | NetCall.postFile _ _ => true
  | NetCall.postMultipart _ _ _ => true

/-- The local file a call uploads (empty for the createempty post). -/
def NetCall.fileOf : NetCall → String
  | NetCall.post _ _ _ => ""
  | NetCall.postFile _ fn => fn
  | NetCall.postMultipart _ fn _ => fn

/-- Written from the words of the spec, for comparison with the source
dispatch: a MIME type is "a known video type" when its top-level type is
`video`. -/
def spec_known_video_mime (m : String) : Bool := py_startswith m "video/"

/-- Concrete test environment in which `mimetypes.guess_type` never
resolves a type. -/
def envGuessNone : UploadEnv :=
  { guess := fun _ => none
  , createResp := some "abc123"
  , postFileResp := fun _ => some "fid1"
  , multipartOk := fun _ => true }

/-- Concrete test environment in which every path is guessed as
`video/quicktime`. -/
def envQuicktime : UploadEnv :=
  { guess := fun _ => some "video/quicktime"
  , createResp := some "abc123"
  , postFileResp := fun _ => some "fid1"
  , multipartOk := fun _ => true }

/-- Concrete test environment in which dataset creation returns a falsy
response. -/
def envCreateFail : UploadEnv :=
  { guess := fun _ => none
  , createResp := none
  , postFileResp := fun _ => none
  , multipartOk := fun _ => false }

/-- Concrete test environment in which dataset creation succeeds but
every individual file upload fails, `.mp4` files being guessed as
`video/mp4`. -/
def envMp4Fail : UploadEnv :=
  { guess := fun s => if s == "a.mp4" then some "video/mp4" else none
  , createResp := some "abc123"
  , postFileResp := fun _ => none
  , multipartOk := fun _ => false }

/-- Concrete download environment: one space `s` holding one dataset
`d1`, whose file listing contains exactly `DSC_Curve.csv`. -/
def envDl : DownloadEnv :=
  { spaceDatasets := fun _ => ["d1"]
  , metadata := fun i => "metadata-of-" ++ i
  , files := fun _ => [{ filename := "DSC_Curve.csv", id := "f9" }]
  , fileContent := fun i => "bytes-of-" ++ i }

/-- The empty local filesystem. -/
def fsEmpty : FS := { dirs := [], files := [] }

/-!  Helper lemmas shared between the claim theorems. -/

/-- The STEP 2 loop issues exactly one call per file, in input order:
the multipart route when the guess is exactly `video/mp4`, the default
`post_file` route otherwise. -/
theorem upload_loop_calls (env : UploadEnv) (dataset_id : String)
    (file_names : List String) :
    (upload_loop env dataset_id file_names).1 = file_names.map (fun fl =>
      if env.guess fl == some "video/mp4" then
        NetCall.postMultipart (config.clowder_base_url ++ "/api/uploadToDataset/" ++ dataset_id)
          fl (resolve_mime (env.guess fl) fl)
      else NetCall.postFile ("/uploadToDataset/" ++ dataset_id) fl) := by
  induction file_names with
  | nil => rfl
  | cons fl rest ih =>
    simp only [upload_loop, upload_file_with_mimetype, List.map]
    split
    · simp [ih]
    · simp [ih]

/-- Every call the STEP 2 loop issues is an upload call, never the
createempty post. -/
theorem upload_loop_all_uploads (env : UploadEnv) (dataset_id : String)
    (file_names : List String) :
    ((upload_loop env dataset_id file_names).1).all NetCall.isUpload = true := by
  rw [upload_loop_calls]
  induction file_names with
  | nil => rfl
  | cons fl rest ih =>
    simp only [List.map, List.all_cons, ih, Bool.and_true]
    split <;> rfl

/-- The STEP 2 loop attempts every file in input order: mapping each
issued call back to its local file recovers the input list. -/
theorem upload_loop_files (env : UploadEnv) (dataset_id : String)
    (file_names : List String) :
    ((upload_loop env dataset_id file_names).1).map NetCall.fileOf = file_names := by
  rw [upload_loop_calls, List.map_map]
  induction file_names with
  | nil => rfl
  | cons fl rest ih =>
    simp only [List.map, ih, Function.comp]
    split <;> rfl

/-- The filesystem produced by downloading dataset `d1` of `envDl` into
an empty filesystem. -/
def fsAfter : FS :=
  { dirs := ["d1"]
  , files := [(("d1", "DSC_Curve.csv"), "bytes-of-f9"),
              (("d1", "metadata.json"), "metadata-of-d1")] }

/-- C9: in `_upload_file_with_mimetype`, the `.mp4` fallback is
case-insensitive: whenever `mimetypes.guess_type` returns no type and the
lowercased file path ends with ".mp4", the multipart call carries MIME
type `video/mp4`, not the generic binary fallback. -/
theorem mp4_fallback_case_insensitive (env : UploadEnv) (dataset_id file_path : String)
    (hguess : env.guess file_path = none)
    (hend : py_endswith (py_lower file_path) ".mp4" = true) :
    (upload_file_with_mimetype env dataset_id file_path).2.1 =
      NetCall.postMultipart (config.clowder_base_url ++ "/api/uploadToDataset/" ++ dataset_id)
        file_path "video/mp4" := by
  simp [upload_file_with_mimetype, resolve_mime, pyFalsyOptStr, hguess, hend]

/-- Witness for C9 at the concrete path "MOVIE.MP4". -/
theorem mp4_fallback_case_insensitive_witness :
    envGuessNone.guess "MOVIE.MP4" = none ∧
    py_endswith (py_lower "MOVIE.MP4") ".mp4" = true ∧
    (upload_file_with_mimetype envGuessNone "abc123" "MOVIE.MP4").2.1 =
      NetCall.postMultipart (config.clowder_base_url ++ "/api/uploadToDataset/" ++ "abc123")
        "MOVIE.MP4" "video/mp4" :=
  ⟨rfl, by decide,
   mp4_fallback_case_insensitive envGuessNone "abc123" "MOVIE.MP4" rfl (by decide)⟩

/-- C1: evaluation at the failing input. For `video.mp4` in an
environment where `mimetypes.guess_type` returns nothing, the upload
command routes the file through the default `post_file` path: the
dispatch in `upload_file` takes the multipart route only when the guess
itself is `video/mp4`, although the `.mp4` fallback inside
`_upload_file_with_mimetype` would have resolved the type to
`video/mp4` — that fallback is unreachable from the dispatch. -/
theorem mp4_dispatch_misses_guess_failure :
    envGuessNone.guess "video.mp4" = none ∧
    (upload_loop envGuessNone "abc123" ["video.mp4"]).1 =
      [NetCall.postFile ("/uploadToDataset/" ++ "abc123") "video.mp4"] ∧
    resolve_mime none "video.mp4" = "video/mp4" :=
  ⟨rfl, rfl, by decide⟩

/-- C4: counterexample. `video/quicktime` is a known video type, yet a
file guessed as `video/quicktime` is uploaded through the default
`post_file` path, not the explicit-MIME multipart path. -/
theorem known_video_type_routed_to_default_path :
    spec_known_video_mime "video/quicktime" = true ∧
    envQuicktime.guess "movie.mov" = some "video/quicktime" ∧
    (upload_loop envQuicktime "abc123" ["movie.mov"]).1 =
      [NetCall.postFile ("/uploadToDataset/" ++ "abc123") "movie.mov"] :=
  ⟨by decide, rfl, rfl⟩

/-- C4 (amended): in the upload command, each file in input order gets
exactly one upload call; the explicit-MIME multipart route is used
exactly when the guessed MIME type is `video/mp4`, and every other file
(video or not) goes through the default `post_file` route. -/
theorem upload_route_exactly_video_mp4 (env : UploadEnv) (dataset_id : String)
    (file_names : List String) :
    (upload_loop env dataset_id file_names).1 = file_names.map (fun fl =>
      if env.guess fl == some "video/mp4" then
        NetCall.postMultipart (config.clowder_base_url ++ "/api/uploadToDataset/" ++ dataset_id)
          fl (resolve_mime (env.guess fl) fl)
      else NetCall.postFile ("/uploadToDataset/" ++ dataset_id) fl) :=
  upload_loop_calls env dataset_id file_names

/-- C8: when the local directory named by the dataset identifier already
exists, `download_dataset` fails at the directory-creation step: no
network fetch of metadata or files occurs and the filesystem is
unchanged. -/
theorem download_dataset_existing_dir_fails (env : DownloadEnv) (fs : FS)
    (dataset_id : String) (h : fs.dirs.contains dataset_id = true) :
    download_dataset env fs dataset_id =
      { fs := fs, gets := [], err := some "FileExistsError" } := by
  unfold download_dataset
  rw [h]
  rfl

/-- Witness for C8 on a filesystem already holding directory `d1`. -/
theorem download_dataset_existing_dir_fails_witness :
    fsAfter.dirs.contains "d1" = true ∧
    download_dataset envDl fsAfter "d1" =
      { fs := fsAfter, gets := [], err := some "FileExistsError" } :=
  ⟨by decide, download_dataset_existing_dir_fails envDl fsAfter "d1" (by decide)⟩

/-- C10: any falsy dataset name — `None` or the empty string — is
replaced by the configured default name "Default Dataset" in the
createempty payload. -/
theorem falsy_dataset_name_uses_default (env : UploadEnv)
    (cure post_cure front_velocity test : Bool) (dataset_name : Option String)
    (file_names : List String)
    (hflag : ((upload_space_names cure post_cure front_velocity test).filter
        (fun p => p.2)).length = 1)
    (hfiles : file_names.length ≠ 0)
    (hname : pyFalsyOptStr dataset_name = true) :
    ∃ sid, (upload_file env cure post_cure front_velocity test dataset_name
        file_names).calls.head? =
      some (NetCall.post "/datasets/createempty" "Default Dataset" sid) := by
  refine ⟨(space_map.lookup
      ((selected_space_name cure post_cure front_velocity test).getD "")).getD "", ?_⟩
  unfold upload_file
  rw [if_neg (by simp [hflag]), if_neg hfiles]
  cases env.createResp <;> simp [hname, config]

/-- Witness for C10: uploading with `--name ""` to the Cure space. -/
theorem falsy_dataset_name_uses_default_witness :
    ((upload_space_names true false false false).filter (fun p => p.2)).length = 1 ∧
    (["a.csv"] : List String).length ≠ 0 ∧
    pyFalsyOptStr (some "") = true ∧
    ∃ sid, (upload_file envGuessNone true false false false (some "")
        ["a.csv"]).calls.head? =
      some (NetCall.post "/datasets/createempty" "Default Dataset" sid) :=
  ⟨by decide, by decide, by decide,
   falsy_dataset_name_uses_default envGuessNone true false false false (some "")
     ["a.csv"] (by decide) (by decide) (by decide)⟩

/-- C2: whenever the number of set space flags is not exactly one, the
upload command exits with code 1 and issues no network call at all —
no dataset creation and no file upload. -/
theorem upload_flag_validation_no_network (env : UploadEnv)
    (cure post_cure front_velocity test : Bool) (dataset_name : Option String)
    (file_names : List String)
    (hflag : ((upload_space_names cure post_cure front_velocity test).filter
        (fun p => p.2)).length ≠ 1) :
    (upload_file env cure post_cure front_velocity test dataset_name file_names).calls = [] ∧
    (upload_file env cure post_cure front_velocity test dataset_name file_names).exitCode = 1 := by
  unfold upload_file
  rw [if_pos hflag]
  exact ⟨rfl, rfl⟩

/-- Witness for C2 with zero flags set. -/
theorem upload_flag_validation_no_network_witness :
    ((upload_space_names false false false false).filter (fun p => p.2)).length ≠ 1 ∧
    ((upload_file envGuessNone false false false false none ["a.csv"]).calls = [] ∧
     (upload_file envGuessNone false false false false none ["a.csv"]).exitCode = 1) :=
  ⟨by decide,
   upload_flag_validation_no_network envGuessNone false false false false none
     ["a.csv"] (by decide)⟩

/-- C6: with exactly one space flag set and at least one file, the
createempty post is the first network call and every later call is a
file upload, so dataset creation precedes all uploads and is never
retried; when creation returns a falsy response, the command stops after
that single call, reports the failure, and attempts no file upload. -/
theorem create_before_uploads_abort_on_failure (env : UploadEnv)
    (cure post_cure front_velocity test : Bool) (dataset_name : Option String)
    (file_names : List String)
    (hflag : ((upload_space_names cure post_cure front_velocity test).filter
        (fun p => p.2)).length = 1)
    (hfiles : file_names.length ≠ 0) :
    (∃ nm sid,
      (upload_file env cure post_cure front_velocity test dataset_name
        file_names).calls.head? = some (NetCall.post "/datasets/createempty" nm sid)) ∧
    ((upload_file env cure post_cure front_velocity test dataset_name
        file_names).calls.tail.all NetCall.isUpload = true) ∧
    (env.createResp = none →
      (∃ nm sid,
        (upload_file env cure post_cure front_velocity test dataset_name
          file_names).calls = [NetCall.post "/datasets/createempty" nm sid]) ∧
      "Upload Failed: Failed to create a new dataset" ∈
        (upload_file env cure post_cure front_velocity test dataset_name
          file_names).messages) := by
  unfold upload_file
  rw [if_neg (by simp [hflag]), if_neg hfiles]
  cases hcr : env.createResp with
  | none =>
    exact ⟨⟨_, _, rfl⟩, rfl, fun _ => ⟨⟨_, _, rfl⟩, by simp⟩⟩
  | some did =>
    refine ⟨⟨_, _, rfl⟩, ?_, fun hc => absurd hc (by simp)⟩
    exact upload_loop_all_uploads env did file_names

/-- Witness for C6: concrete run in which dataset creation fails. -/
theorem create_before_uploads_abort_on_failure_witness :
    ((upload_space_names false true false false).filter (fun p => p.2)).length = 1 ∧
    (["a.csv"] : List String).length ≠ 0 ∧
    ((∃ nm sid,
      (upload_file envCreateFail false true false false none
        ["a.csv"]).calls.head? = some (NetCall.post "/datasets/createempty" nm sid)) ∧
    ((upload_file envCreateFail false true false false none
        ["a.csv"]).calls.tail.all NetCall.isUpload = true) ∧
    (envCreateFail.createResp = none →
      (∃ nm sid,
        (upload_file envCreateFail false true false false none
          ["a.csv"]).calls = [NetCall.post "/datasets/createempty" nm sid]) ∧
      "Upload Failed: Failed to create a new dataset" ∈
        (upload_file envCreateFail false true false false none
          ["a.csv"]).messages)) :=
  ⟨by decide, by decide,
   create_before_uploads_abort_on_failure envCreateFail false true false false none
     ["a.csv"] (by decide) (by decide)⟩

/-- C7: once dataset creation succeeds, every file gets exactly one
upload attempt, in input order, regardless of individual failures — the
loop never stops early and issues no rollback call — and the final
console message reports the browsable dataset URL, built around the
created dataset identifier and the chosen space identifier. -/
theorem uploads_continue_and_report_url (env : UploadEnv)
    (cure post_cure front_velocity test : Bool) (dataset_name : Option String)
    (file_names : List String) (did : String)
    (hflag : ((upload_space_names cure post_cure front_velocity test).filter
        (fun p => p.2)).length = 1)
    (hfiles : file_names.length ≠ 0)
    (hcr : env.createResp = some did) :
    ((upload_file env cure post_cure front_velocity test dataset_name
        file_names).calls.tail.map NetCall.fileOf = file_names) ∧
    ((upload_file env cure post_cure front_velocity test dataset_name
        file_names).messages.getLast? =
      some ("Uploaded Files to newly created dataset: " ++
        (config.clowder_base_url ++ "/" ++ config.dataset_path ++ "/" ++ did ++
         "?space=" ++
         (space_map.lookup ((selected_space_name cure post_cure front_velocity
           test).getD "")).getD ""))) := by
  unfold upload_file
  rw [if_neg (by simp [hflag]), if_neg hfiles]
  rw [hcr]
  constructor
  · exact upload_loop_files env did file_names
  · rw [List.getLast?_concat]

/-- Witness for C7: a run with one failing multipart file and one
default-path file still attempts both and reports the URL. -/
theorem uploads_continue_and_report_url_witness :
    ((upload_space_names false false true false).filter (fun p => p.2)).length = 1 ∧
    (["a.mp4", "b.csv"] : List String).length ≠ 0 ∧
    envMp4Fail.createResp = some "abc123" ∧
    ((upload_file envMp4Fail false false true false none
        ["a.mp4", "b.csv"]).calls.tail.map NetCall.fileOf = ["a.mp4", "b.csv"]) ∧
    ((upload_file envMp4Fail false false true false none
        ["a.mp4", "b.csv"]).messages.getLast? =
      some ("Uploaded Files to newly created dataset: " ++
        (config.clowder_base_url ++ "/" ++ config.dataset_path ++ "/" ++ "abc123" ++
         "?space=" ++
         (space_map.lookup ((selected_space_name false false true false).getD "")).getD ""))) :=
  ⟨by decide, by decide, rfl,
   uploads_continue_and_report_url envMp4Fail false false true false none
     ["a.mp4", "b.csv"] "abc123" (by decide) (by decide) rfl⟩

/-- Two path keys sharing the directory differ when filenames differ. -/
theorem pair_beq_false (a b c : String) (h : (b == c) = false) :
    ((a, b) == (a, c)) = false := by
  show (a == a && (b == c)) = false
  simp [h]

/-- Looking a path up past an entry with the same directory but another
filename skips that entry. -/
theorem lookup_pair_ne {β : Type} (a b c : String) (v : β)
    (l : List ((String × String) × β)) (h : (b == c) = false) :
    List.lookup (a, b) (((a, c), v) :: l) = List.lookup (a, b) l := by
  show (match (a, b) == (a, c) with
        | true => some v
        | false => List.lookup (a, b) l) = List.lookup (a, b) l
  rw [pair_beq_false a b c h]

/-- Looking a path up at an entry with exactly that key returns its
content. -/
theorem lookup_pair_self {β : Type} (k : String × String) (v : β)
    (l : List ((String × String) × β)) :
    List.lookup k ((k, v) :: l) = some v := by
  show (match k == k with
        | true => some v
        | false => List.lookup k l) = some v
  rw [beq_self_eq_true]

/-- C3: for a dataset whose local directory does not yet exist (and with
no stale `DSC_Curve.csv` entry under that directory), `download_dataset`
succeeds, creates the directory, writes `metadata.json` holding exactly
the JSON value the metadata endpoint returned, and `DSC_Curve.csv`
exists in the directory afterwards iff the files endpoint listed a
record whose filename is exactly `DSC_Curve.csv`. -/
theorem download_dataset_materializes (env : DownloadEnv) (fs : FS)
    (dataset_id : String)
    (hdir : fs.dirs.contains dataset_id = false)
    (hclean : fs.files.lookup (dataset_id, "DSC_Curve.csv") = none) :
    (download_dataset env fs dataset_id).err = none ∧
    (download_dataset env fs dataset_id).fs.dirs.contains dataset_id = true ∧
    (download_dataset env fs dataset_id).fs.files.lookup (dataset_id, "metadata.json") =
      some (env.metadata dataset_id) ∧
    (((download_dataset env fs dataset_id).fs.files.lookup
        (dataset_id, "DSC_Curve.csv")).isSome ↔
      (env.files dataset_id).any (fun f => f.filename == "DSC_Curve.csv") = true) := by
  unfold download_dataset
  rw [hdir]
  simp only [Bool.false_eq_true, if_false]
  cases hfil : (env.files dataset_id).filter (fun f => f.filename == "DSC_Curve.csv") with
  | nil =>
    have hany : (env.files dataset_id).any (fun f => f.filename == "DSC_Curve.csv") = false := by
      rw [List.any_eq_false]
      intro x hx
      have := List.filter_eq_nil_iff.mp hfil x hx
      simpa using this
    refine ⟨rfl, by simp, lookup_pair_self _ _ _, ?_⟩
    show (List.lookup (dataset_id, "DSC_Curve.csv")
        (((dataset_id, "metadata.json"), env.metadata dataset_id) :: fs.files)).isSome ↔ _
    rw [lookup_pair_ne dataset_id "DSC_Curve.csv" "metadata.json" _ _ (by decide),
        hclean, hany]
    simp
  | cons f rest =>
    have hf : f ∈ (env.files dataset_id).filter (fun g => g.filename == "DSC_Curve.csv") := by
      rw [hfil]; exact List.mem_cons_self f rest
    have hf2 := List.mem_filter.mp hf
    have hany : (env.files dataset_id).any (fun g => g.filename == "DSC_Curve.csv") = true := by
      rw [List.any_eq_true]; exact ⟨f, hf2.1, hf2.2⟩
    refine ⟨rfl, by simp, ?_, ?_⟩
    · show List.lookup (dataset_id, "metadata.json")
        (((dataset_id, "DSC_Curve.csv"), env.fileContent f.id) ::
         ((dataset_id, "metadata.json"), env.metadata dataset_id) :: fs.files) =
        some (env.metadata dataset_id)
      rw [lookup_pair_ne dataset_id "metadata.json" "DSC_Curve.csv" _ _ (by decide)]
      exact lookup_pair_self _ _ _
    · show (List.lookup (dataset_id, "DSC_Curve.csv")
        (((dataset_id, "DSC_Curve.csv"), env.fileContent f.id) ::
         ((dataset_id, "metadata.json"), env.metadata dataset_id) :: fs.files)).isSome ↔ _
      rw [lookup_pair_self, hany]
      simp

/-- Witness for C3: downloading `d1` into an empty filesystem, with the
files endpoint listing exactly `DSC_Curve.csv`. -/
theorem download_dataset_materializes_witness :
    fsEmpty.dirs.contains "d1" = false ∧
    fsEmpty.files.lookup ("d1", "DSC_Curve.csv") = none ∧
    ((download_dataset envDl fsEmpty "d1").err = none ∧
     (download_dataset envDl fsEmpty "d1").fs.dirs.contains "d1" = true ∧
     (download_dataset envDl fsEmpty "d1").fs.files.lookup ("d1", "metadata.json") =
       some (envDl.metadata "d1") ∧
     (((download_dataset envDl fsEmpty "d1").fs.files.lookup
         ("d1", "DSC_Curve.csv")).isSome ↔
       (envDl.files "d1").any (fun f => f.filename == "DSC_Curve.csv") = true)) :=
  ⟨rfl, rfl, download_dataset_materializes envDl fsEmpty "d1" rfl rfl⟩

/-- A successful `download_dataset` creates exactly the directory named
by the dataset identifier on top of the existing ones. -/
theorem download_dataset_success_dirs (env : DownloadEnv) (fs : FS)
    (dataset_id : String) (h : (download_dataset env fs dataset_id).err = none) :
    (download_dataset env fs dataset_id).fs.dirs = dataset_id :: fs.dirs := by
  unfold download_dataset at h ⊢
  cases hc : fs.dirs.contains dataset_id with
  | true => rw [hc] at h; simp at h
  | false =>
    cases hfil : (env.files dataset_id).filter (fun f => f.filename == "DSC_Curve.csv") with
    | nil => rfl
    | cons f rest => rfl

/-- Directories only accumulate along the `download_space` loop: the
initial directories survive, and every processed dataset id ends up as a
directory. -/
theorem download_space_loop_dirs (env : DownloadEnv) :
    ∀ (l : List String) (fs fs2 : FS) (ids : List String),
    download_space_loop env fs l = Except.ok (fs2, ids) →
    (∀ d, d ∈ fs.dirs → d ∈ fs2.dirs) ∧ (∀ d, d ∈ l → d ∈ fs2.dirs) := by
  intro l
  induction l with
  | nil =>
    intro fs fs2 ids h
    simp only [download_space_loop, Except.ok.injEq, Prod.mk.injEq] at h
    obtain ⟨h1, _⟩ := h
    subst h1
    exact ⟨fun d hd => hd, fun d hd => absurd hd (List.not_mem_nil d)⟩
  | cons a rest ih =>
    intro fs fs2 ids h
    simp only [download_space_loop] at h
    cases herr : (download_dataset env fs a).err with
    | some e => rw [herr] at h; simp at h
    | none =>
      rw [herr] at h
      cases hrec : download_space_loop env (download_dataset env fs a).fs rest with
      | error e => rw [hrec] at h; simp at h
      | ok p =>
        obtain ⟨fs3, ids3⟩ := p
        rw [hrec] at h
        simp only [Except.ok.injEq, Prod.mk.injEq] at h
        obtain ⟨hfs, _⟩ := h
        subst hfs
        have hd := download_dataset_success_dirs env fs a herr
        have hrest := ih (download_dataset env fs a).fs fs3 ids3 hrec
        constructor
        · intro d hdm
          exact hrest.1 d (by rw [hd]; exact List.mem_cons_of_mem a hdm)
        · intro d hdm
          rcases List.mem_cons.mp hdm with heq | hm
          · subst heq
            exact hrest.1 d (by rw [hd]; exact List.mem_cons_self d fs.dirs)
          · exact hrest.2 d hm

/-- C5: a second invocation of `download_space` after one that succeeded,
with the remote listing unchanged, performs zero single-dataset
downloads: every dataset id is filtered out because its directory now
exists, the loop runs on the empty list, and the filesystem is returned
unchanged. -/
theorem download_space_second_run_no_downloads (env : DownloadEnv) (fs fs2 : FS)
    (space_id : String) (ids : List String)
    (h : download_space env fs space_id = Except.ok (fs2, ids)) :
    download_space env fs2 space_id = Except.ok (fs2, []) := by
  unfold download_space at h ⊢
  have hmem : ∀ d ∈ env.spaceDatasets space_id, d ∈ fs2.dirs := by
    intro d hd
    by_cases hc : fs.dirs.contains d = true
    · exact (download_space_loop_dirs env _ fs fs2 ids h).1 d (by simpa using hc)
    · have hin : d ∈ (env.spaceDatasets space_id).filter
          (fun x => !(fs.dirs.contains x)) := by
        rw [List.mem_filter]
        exact ⟨hd, by simp [Bool.not_eq_true] at hc; simp [hc]⟩
      exact (download_space_loop_dirs env _ fs fs2 ids h).2 d hin
  have hfil : (env.spaceDatasets space_id).filter
      (fun d => !(fs2.dirs.contains d)) = [] := by
    rw [List.filter_eq_nil_iff]
    intro a ha
    simp [hmem a ha]
  rw [hfil]
  rfl

/-- Witness for C5: downloading space `s` of `envDl` into an empty
filesystem, then invoking the command again. -/
theorem download_space_second_run_no_downloads_witness :
    download_space envDl fsEmpty "s" = Except.ok (fsAfter, ["d1"]) ∧
    download_space envDl fsAfter "s" = Except.ok (fsAfter, []) :=
  ⟨rfl, download_space_second_run_no_downloads envDl fsEmpty fsAfter "s" ["d1"] rfl⟩

end RematData
